import Mathlib

/-!
Verification development for the MoodAgent sentiment-trading core.

The embedding covers:
* the pure numeric primitives of `src/lib/utils/math` (`ExponentialMovingAverage`,
  `calculateZScore`, `calculateMean`, `calculateStdDev`, `detectCrossover`);
* the `SentimentAggregator` (signal aggregation with EMA smoothing and a bounded
  raw-score history);
* the `RiskManager` (`canExecute` / `recordExecution` over the durable risk state);
* the `DecisionEngine.makeDecision` rule chain;
* the `Executor` (`execute` and `monitorPendingTransactions`).

JavaScript numbers are modelled as rationals (`ℚ`).  `Math.sqrt` — used only inside
`calculateStdDev`, whose exact value no property here depends on — is passed as an
explicit function parameter.  Timestamps (`new Date()`) are modelled as a `now : ℕ`
parameter.  The Redis-backed durable counters are modelled as an explicit
`RiskState` record threaded through the operations; human-readable reason strings
are modelled as structured inductive values carrying the same data the source
interpolates into the string.
-/

namespace MoodAgent

/-- Tunable policy configuration, `config.policy` in the source configuration
module.  The source fixes concrete values (see `defaultPolicy`); the operations
below are embedded parametrically in the record, exactly as the code is
parametric in whatever the configuration module exports. -/
structure PolicyConfig where
  hypeThreshold : ℚ
  fudThreshold : ℚ
  momentumPositive : ℚ
  momentumNegative : ℚ
  maxDailySpendPercent : ℚ
  maxSlippagePercent : ℚ
  minTreasuryThreshold : ℚ
  maxConsecutiveLosses : ℕ
  deriving DecidableEq

/-- The concrete policy configuration shipped in the source configuration module. -/
def defaultPolicy : PolicyConfig :=
  { hypeThreshold := 3/2
    fudThreshold := -1
    momentumPositive := 0
    momentumNegative := 0
    maxDailySpendPercent := 5
    maxSlippagePercent := 2
    minTreasuryThreshold := 1/10
    maxConsecutiveLosses := 3 }

/-- `calculateZScore(value, mean, stdDev)` from the math utilities:
`0` when `stdDev === 0`, otherwise `(value - mean) / stdDev`. -/
def calculateZScore (value mean stdDev : ℚ) : ℚ :=
  if stdDev = 0 then 0 else (value - mean) / stdDev

/-- `calculateMean(values)`: `0` on the empty list, else the arithmetic mean. -/
def calculateMean (values : List ℚ) : ℚ :=
  if values.length = 0 then 0 else values.sum / values.length

/-- The variance computed inside `calculateStdDev(values)` (population variance,
divide by `N`); `0` on the empty list. -/
def calculateVariance (values : List ℚ) : ℚ :=
  if values.length = 0 then 0
  else
    let mean := values.sum / values.length
    ((values.map (fun v => (v - mean) ^ 2)).sum) / values.length

/-- `calculateStdDev(values)`: `Math.sqrt` of the population variance; `0` on the
empty list.  The square root is the explicit `sqrt` parameter. -/
def calculateStdDev (sqrt : ℚ → ℚ) (values : List ℚ) : ℚ :=
  if values.length = 0 then 0 else sqrt (calculateVariance values)

/-- Result type of `detectCrossover`. -/
inductive Crossover where
  | up
  | down
  | none
  deriving DecidableEq

/-- `detectCrossover(fastValues, slowValues)` from the math utilities: `none`
when either series has fewer than 2 points; otherwise compares the last two
paired samples.  `up` iff fast was `≤` slow and is now `>`; `down` iff fast was
`≥` slow and is now `<`; otherwise `none`. -/
def detectCrossover (fastValues slowValues : List ℚ) : Crossover :=
  if fastValues.length < 2 ∨ slowValues.length < 2 then Crossover.none
  else
    let fastPrev := fastValues.getD (fastValues.length - 2) 0
    let fastCurr := fastValues.getD (fastValues.length - 1) 0
    let slowPrev := slowValues.getD (slowValues.length - 2) 0
    let slowCurr := slowValues.getD (slowValues.length - 1) 0
    if fastPrev ≤ slowPrev ∧ fastCurr > slowCurr then Crossover.up
    else if fastPrev ≥ slowPrev ∧ fastCurr < slowCurr then Crossover.down
    else Crossover.none

/-- State of an `ExponentialMovingAverage`: the smoothing factor `alpha` fixed at
construction (`2/(window+1)`) and the current accumulator, `none` until the
first `add`. -/
structure ExponentialMovingAverage where
  alpha : ℚ
  ema : Option ℚ
  deriving DecidableEq

/-- `new ExponentialMovingAverage(window)`. -/
def ExponentialMovingAverage.init (window : ℚ) : ExponentialMovingAverage :=
  { alpha := 2 / (window + 1), ema := Option.none }

/-- `ema.add(value)`: first call initialises the accumulator to `value`;
subsequent calls apply `alpha*value + (1-alpha)*ema`.  Returns the new EMA value
and the updated state. -/
def ExponentialMovingAverage.add (s : ExponentialMovingAverage) (value : ℚ) :
    ℚ × ExponentialMovingAverage :=
  match s.ema with
  | Option.none => (value, { s with ema := some value })
  | some e =>
      let e' := s.alpha * value + (1 - s.alpha) * e
      (e', { s with ema := some e' })

/-- Topic proportion split in `AggregatedMood`. -/
structure TopicBreakdown where
  ourCoin : ℚ
  generalMarket : ℚ
  deriving DecidableEq

/-- `AggregatedMood` produced by one aggregation call. -/
structure AggregatedMood where
  timestamp : ℕ
  rawScore : ℚ
  zScore : ℚ
  ema5 : ℚ
  ema15 : ℚ
  ema60 : ℚ
  volume : ℕ
  topicBreakdown : TopicBreakdown
  deriving DecidableEq

/-- The fields of a `ProcessedTweet` the aggregator reads: the sentiment value
and confidence, the author weight, and whether the tweet text mentions the
configured coin (the `text.toLowerCase().includes(...)` test in
`analyzeTopics`, modelled as a boolean attribute of the sample). -/
structure ProcessedTweet where
  sentimentValue : ℚ
  sentimentConfidence : ℚ
  authorWeight : ℚ
  mentionsOurCoin : Bool
  deriving DecidableEq

/-- Mutable state of the `SentimentAggregator`: the three EMA accumulators and
the bounded raw-score history (`maxHistorySize` is set to 1000 by the source). -/
structure SentimentAggregator where
  ema5 : ExponentialMovingAverage
  ema15 : ExponentialMovingAverage
  ema60 : ExponentialMovingAverage
  historicalScores : List ℚ
  maxHistorySize : ℕ
  deriving DecidableEq

/-- `new SentimentAggregator()`: EMAs with windows `emaShort=5`, `emaMedium=15`,
`emaLong=60`; empty history; history cap 1000. -/
def SentimentAggregator.init : SentimentAggregator :=
  { ema5 := ExponentialMovingAverage.init 5
    ema15 := ExponentialMovingAverage.init 15
    ema60 := ExponentialMovingAverage.init 60
    historicalScores := []
    maxHistorySize := 1000 }

/-- `getEmptyMood()`: the neutral mood returned for an empty batch. -/
def getEmptyMood (now : ℕ) : AggregatedMood :=
  { timestamp := now
    rawScore := 0
    zScore := 0
    ema5 := 0
    ema15 := 0
    ema60 := 0
    volume := 0
    topicBreakdown := { ourCoin := 0, generalMarket := 0 } }

/-- `analyzeTopics(tweets)`: proportion of samples mentioning the configured
coin versus the rest. -/
def analyzeTopics (tweets : List ProcessedTweet) : TopicBreakdown :=
  let ourCoinCount := (tweets.filter (fun t => t.mentionsOurCoin)).length
  let generalCount := (tweets.filter (fun t => !t.mentionsOurCoin)).length
  let total := ourCoinCount + generalCount
  if total > 0 then
    { ourCoin := (ourCoinCount : ℚ) / total, generalMarket := (generalCount : ℚ) / total }
  else
    { ourCoin := 0, generalMarket := 0 }

/-- `SentimentAggregator.aggregate(tweets)`.  Empty batch: returns the neutral
mood and leaves the state untouched.  Otherwise: weighted-average raw score
(weight `authorWeight * confidence`, `0` when the total weight is not positive),
feeds the raw score into the three EMAs, pushes it onto the history (evicting
the oldest entry beyond `maxHistorySize`), computes the z-score over the
post-push history, and builds the mood.  Returns the mood and the new state. -/
def SentimentAggregator.aggregate (sqrt : ℚ → ℚ) (now : ℕ)
    (s : SentimentAggregator) (tweets : List ProcessedTweet) :
    AggregatedMood × SentimentAggregator :=
  if tweets.length = 0 then (getEmptyMood now, s)
  else
    let totalSentiment :=
      (tweets.map (fun t => t.sentimentValue * (t.authorWeight * t.sentimentConfidence))).sum
    let totalWeight := (tweets.map (fun t => t.authorWeight * t.sentimentConfidence)).sum
    let rawScore := if totalWeight > 0 then totalSentiment / totalWeight else 0
    let r5 := s.ema5.add rawScore
    let r15 := s.ema15.add rawScore
    let r60 := s.ema60.add rawScore
    let pushed := s.historicalScores ++ [rawScore]
    let hist := if pushed.length > s.maxHistorySize then pushed.tail else pushed
    let mean := calculateMean hist
    let stdDev := calculateStdDev sqrt hist
    let zScore := calculateZScore rawScore mean stdDev
    ({ timestamp := now
       rawScore := rawScore
       zScore := zScore
       ema5 := r5.1
       ema15 := r15.1
       ema60 := r60.1
       volume := tweets.length
       topicBreakdown := analyzeTopics tweets },
     { s with ema5 := r5.2, ema15 := r15.2, ema60 := r60.2, historicalScores := hist })

/-- Structured rendering of the rejection reason strings the `RiskManager`
builds; each constructor carries the data the source interpolates into the
string. -/
inductive RiskReason where
  | killSwitch
  | insufficientTreasury (minReserve : ℚ)
  | dailyLimitExceeded (spent limit : ℚ)
  | tooManyLosses (count : ℕ)
  deriving DecidableEq

/-- Result of `RiskManager.canExecute`: `{ allowed: bool, reason?: string }`. -/
structure RiskCheck where
  allowed : Bool
  reason : Option RiskReason
  deriving DecidableEq

/-- The durable risk state held in the store: current-day spend, consecutive
losses, last execution time, treasury balance, kill switch. -/
structure RiskState where
  dailySpent : ℚ
  consecutiveLosses : ℕ
  lastExecutionTime : Option ℕ
  treasuryBalance : ℚ
  killSwitchActive : Bool
  deriving DecidableEq

/-- `RiskManager.canExecute(amount)`: ordered short-circuit chain — kill switch,
treasury reserve, daily spend limit, consecutive losses — with the first
failing check producing the rejection reason.  The treasury balance is read
from the store once, before the reserve check, and that value is also used to
compute the daily spend limit (see `canExecuteStore` for the read-trace
version). -/
def canExecute (cfg : PolicyConfig) (s : RiskState) (amount : ℚ) : RiskCheck :=
  if s.killSwitchActive then
    { allowed := false, reason := some RiskReason.killSwitch }
  else
    let treasuryBalance := s.treasuryBalance
    let minReserve := treasuryBalance * cfg.minTreasuryThreshold
    if treasuryBalance - amount < minReserve then
      { allowed := false, reason := some (RiskReason.insufficientTreasury minReserve) }
    else
      let dailySpent := s.dailySpent
      let maxDailySpend := treasuryBalance * (cfg.maxDailySpendPercent / 100)
      if dailySpent + amount > maxDailySpend then
        { allowed := false, reason := some (RiskReason.dailyLimitExceeded dailySpent maxDailySpend) }
      else if s.consecutiveLosses ≥ cfg.maxConsecutiveLosses then
        { allowed := false, reason := some (RiskReason.tooManyLosses s.consecutiveLosses) }
      else
        { allowed := true, reason := Option.none }

/-- `RiskManager.canExecute` re-embedded over a store whose treasury balance may
change between successive reads within the call: `balanceAt n` is the value the
`(n+1)`-th `getTreasuryBalance` read of this call would return.  The source
performs exactly one such read (`const treasuryBalance = await
this.getTreasuryBalance()`) before the reserve check and reuses the constant
for the daily-spend limit.  Returns the result together with the number of
balance reads performed. -/
def canExecuteStore (cfg : PolicyConfig) (killSwitchActive : Bool) (balanceAt : ℕ → ℚ)
    (dailySpent : ℚ) (consecutiveLosses : ℕ) (amount : ℚ) : RiskCheck × ℕ :=
  if killSwitchActive then
    ({ allowed := false, reason := some RiskReason.killSwitch }, 0)
  else
    let treasuryBalance := balanceAt 0
    let minReserve := treasuryBalance * cfg.minTreasuryThreshold
    if treasuryBalance - amount < minReserve then
      ({ allowed := false, reason := some (RiskReason.insufficientTreasury minReserve) }, 1)
    else
      let maxDailySpend := treasuryBalance * (cfg.maxDailySpendPercent / 100)
      if dailySpent + amount > maxDailySpend then
        ({ allowed := false, reason := some (RiskReason.dailyLimitExceeded dailySpent maxDailySpend) }, 1)
      else if consecutiveLosses ≥ cfg.maxConsecutiveLosses then
        ({ allowed := false, reason := some (RiskReason.tooManyLosses consecutiveLosses) }, 1)
      else
        ({ allowed := true, reason := Option.none }, 1)

/-- Modelled from the spec: the C7 reading of `canExecute` in which "each check
reads `treasuryBalance` fresh (never cached across checks within a call)" — the
reserve check reads `balanceAt 0` and the daily-spend check performs a second
read, `balanceAt 1`.  Written for refinement comparison against
`canExecuteStore`, which embeds what the source actually does. -/
def canExecuteFreshSpec (cfg : PolicyConfig) (killSwitchActive : Bool) (balanceAt : ℕ → ℚ)
    (dailySpent : ℚ) (consecutiveLosses : ℕ) (amount : ℚ) : RiskCheck :=
  if killSwitchActive then
    { allowed := false, reason := some RiskReason.killSwitch }
  else
    let balance0 := balanceAt 0
    let minReserve := balance0 * cfg.minTreasuryThreshold
    if balance0 - amount < minReserve then
      { allowed := false, reason := some (RiskReason.insufficientTreasury minReserve) }
    else
      let balance1 := balanceAt 1
      let maxDailySpend := balance1 * (cfg.maxDailySpendPercent / 100)
      if dailySpent + amount > maxDailySpend then
        { allowed := false, reason := some (RiskReason.dailyLimitExceeded dailySpent maxDailySpend) }
      else if consecutiveLosses ≥ cfg.maxConsecutiveLosses then
        { allowed := false, reason := some (RiskReason.tooManyLosses consecutiveLosses) }
      else
        { allowed := true, reason := Option.none }

/-- `RiskManager.recordExecution(amount, success)`: always adds `amount` to the
current-day spend counter (`INCRBYFLOAT`), sets `consecutiveLosses` to `0` on
success and increments it on failure, and sets the last-execution time to the
current time. -/
def recordExecution (s : RiskState) (amount : ℚ) (success : Bool) (now : ℕ) : RiskState :=
  { s with
    dailySpent := s.dailySpent + amount
    consecutiveLosses := if success then 0 else s.consecutiveLosses + 1
    lastExecutionTime := some now }

/-- `PolicyDecision.action`. -/
inductive Action where
  | HODL_TREASURY
  | BUYBACK
  | BURN
  | NOOP
  deriving DecidableEq

/-- Structured rendering of the `PolicyDecision.reason` strings built by
`DecisionEngine.makeDecision`; each constructor carries the data the source
interpolates. -/
inductive DecisionReason where
  | highSentimentWaiting (z : ℚ)
  | lowSentimentBuying (z : ℚ)
  | buybackBlocked (r : Option RiskReason)
  | bearishCrossoverBurning
  | noClearSignal
  deriving DecidableEq

/-- `PolicyDecision.executionParams`. -/
structure ExecutionParams where
  size : ℚ
  maxSlippage : ℚ
  dcaFactor : ℚ
  deriving DecidableEq

/-- `PolicyDecision.signals` snapshot. -/
structure DecisionSignals where
  moodZScore : ℚ
  priceMomentum : ℚ
  liquidityOk : Bool
  deriving DecidableEq

/-- `PolicyDecision`. -/
structure PolicyDecision where
  timestamp : ℕ
  action : Action
  reason : DecisionReason
  signals : DecisionSignals
  executionParams : Option ExecutionParams
  deriving DecidableEq

/-- `MarketSignal` fields the decision engine reads. -/
structure MarketSignal where
  price : ℚ
  priceChange24h : ℚ
  volume24h : ℚ
  liquidity : ℚ
  momentum : ℚ
  largeTransfers : ℚ
  deriving DecidableEq

/-- Persistent state of the `DecisionEngine`: the rolling `ema15`/`ema60` pair
history used for crossover detection. -/
structure DecisionEngine where
  ema15History : List ℚ
  ema60History : List ℚ
  deriving DecidableEq

/-- `DecisionEngine.detectBearishCrossover()`: `false` with fewer than two
points in either history, otherwise whether `detectCrossover` on the two
histories yields `down`. -/
def detectBearishCrossover (eng : DecisionEngine) : Bool :=
  if eng.ema15History.length < 2 ∨ eng.ema60History.length < 2 then false
  else decide (detectCrossover eng.ema15History eng.ema60History = Crossover.down)

/-- `DecisionEngine.makeDecision(mood, market)`.  First appends the mood's
`ema15`/`ema60` to the histories (evicting the oldest pair beyond 100 entries),
then evaluates the rule chain in order with first-match-wins semantics:
hold-during-hype, buy-the-dip (sized `0.01 * |zScore| * treasuryBalance * 0.5`
and gated through `canExecute`, downgrading to NOOP on rejection),
bearish-crossover burn (given liquidity above 10000), default NOOP.  Returns
the decision and the updated engine state; the risk state is only read. -/
def makeDecision (cfg : PolicyConfig) (now : ℕ) (eng : DecisionEngine)
    (risk : RiskState) (mood : AggregatedMood) (market : MarketSignal) :
    PolicyDecision × DecisionEngine :=
  let pushed15 := eng.ema15History ++ [mood.ema15]
  let pushed60 := eng.ema60History ++ [mood.ema60]
  let eng' : DecisionEngine :=
    if pushed15.length > 100 then { ema15History := pushed15.tail, ema60History := pushed60.tail }
    else { ema15History := pushed15, ema60History := pushed60 }
  let liquidityOk : Bool := decide (market.liquidity > 10000)
  let signals : DecisionSignals :=
    { moodZScore := mood.zScore, priceMomentum := market.momentum, liquidityOk := liquidityOk }
  if mood.zScore ≥ cfg.hypeThreshold ∧ market.momentum ≥ cfg.momentumPositive then
    ({ timestamp := now
       action := Action.HODL_TREASURY
       reason := DecisionReason.highSentimentWaiting mood.zScore
       signals := signals
       executionParams := Option.none }, eng')
  else if mood.zScore ≤ cfg.fudThreshold ∧ market.momentum ≤ cfg.momentumNegative then
    let treasuryBalance := risk.treasuryBalance
    let size := (1/100 : ℚ) * |mood.zScore| * treasuryBalance * (1/2)
    let riskCheck := canExecute cfg risk size
    if riskCheck.allowed then
      ({ timestamp := now
         action := Action.BUYBACK
         reason := DecisionReason.lowSentimentBuying mood.zScore
         signals := signals
         executionParams :=
           some { size := size, maxSlippage := cfg.maxSlippagePercent, dcaFactor := 1/2 } }, eng')
    else
      ({ timestamp := now
         action := Action.NOOP
         reason := DecisionReason.buybackBlocked riskCheck.reason
         signals := signals
         executionParams := Option.none }, eng')
  else if detectBearishCrossover eng' ∧ liquidityOk then
    ({ timestamp := now
       action := Action.BURN
       reason := DecisionReason.bearishCrossoverBurning
       signals := signals
       executionParams := Option.none }, eng')
  else
    ({ timestamp := now
       action := Action.NOOP
       reason := DecisionReason.noClearSignal
       signals := signals
       executionParams := Option.none }, eng')

/-- Transaction status reported by `SolanaClient.getTransactionStatus` (its own
catch clause maps query errors to `pending`, so the result is total over these
three values). -/
inductive TxStatus where
  | pending
  | confirmed
  | failed
  deriving DecidableEq

/-- Structured rendering of the message strings the `Executor` places in the
`error` field of an `ExecutionResult` (the source also routes success notes
like "Buyback executed" through this parameter). -/
inductive ExecMessage where
  | autoExecutionDisabled
  | noActionRequired
  | unknownAction
  | missingExecutionParams
  | riskRejected (r : Option RiskReason)
  | tokenMintNotConfigured
  | buybackExecuted
  | burnFeatureDisabled
  | noTokensToBurn
  | burnExecuted
  | externalError (e : String)
  deriving DecidableEq

/-- `ExecutionResult`. -/
structure ExecutionResult where
  timestamp : ℕ
  decision : PolicyDecision
  txSignature : Option String
  success : Bool
  amountProcessed : Option ℚ
  error : Option ExecMessage
  deriving DecidableEq

/-- `Executor.createResult(decision, success, error?, txSignature?, amountProcessed?)`. -/
def createResult (now : ℕ) (decision : PolicyDecision) (success : Bool)
    (error : Option ExecMessage) (txSignature : Option String)
    (amountProcessed : Option ℚ) : ExecutionResult :=
  { timestamp := now
    decision := decision
    txSignature := txSignature
    success := success
    amountProcessed := amountProcessed
    error := error }

/-- The executor's feature flags (`config.features`). -/
structure FeatureFlags where
  enableAutoExecution : Bool
  enableBurn : Bool
  deriving DecidableEq

/-- Outcomes of the external Solana calls an execution may make, each either an
error (the thrown message, handled by the source's catch clauses) or a value:
the swap submission (returning a transaction signature), the token-balance
query, and the burn submission.  `tokenMint` is the `TOKEN_MINT` environment
value (defaulting to the empty string). -/
structure ChainEnv where
  tokenMint : String
  swapResult : Except String String
  tokenBalance : Except String ℚ
  burnResult : Except String String

/-- Mutable state of the `Executor`: the active pending-execution set (as the
ordered association list of `(txSignature, decision)` entries of the source's
`Map`) and the shared risk state. -/
structure ExecutorState where
  pendingExecutions : List (String × PolicyDecision)
  risk : RiskState
  deriving DecidableEq

/-- The `amount` the executor hands to `recordExecution`:
`decision.executionParams?.size || 0` (JavaScript `||` sends an absent
parameter block — and a zero size — to `0`). -/
def decisionAmount (decision : PolicyDecision) : ℚ :=
  (decision.executionParams.map (fun p => p.size)).getD 0

/-- `Executor.executeBuyback(decision)`: rejects on a missing (or zero, which
is falsy) size, re-checks the risk gate, requires a configured token mint, then
submits the swap; on success the signature is registered in the active
pending set.  Returns the result and the updated executor state. -/
def executeBuyback (cfg : PolicyConfig) (env : ChainEnv) (now : ℕ)
    (st : ExecutorState) (decision : PolicyDecision) : ExecutionResult × ExecutorState :=
  match decision.executionParams with
  | Option.none =>
      (createResult now decision false (some ExecMessage.missingExecutionParams)
        Option.none Option.none, st)
  | some p =>
      if p.size = 0 then
        (createResult now decision false (some ExecMessage.missingExecutionParams)
          Option.none Option.none, st)
      else
        let riskCheck := canExecute cfg st.risk p.size
        if riskCheck.allowed = false then
          (createResult now decision false (some (ExecMessage.riskRejected riskCheck.reason))
            Option.none Option.none, st)
        else if env.tokenMint = "" then
          (createResult now decision false (some ExecMessage.tokenMintNotConfigured)
            Option.none Option.none, st)
        else
          match env.swapResult with
          | Except.error e =>
              (createResult now decision false (some (ExecMessage.externalError e))
                Option.none Option.none, st)
          | Except.ok txSignature =>
              (createResult now decision true (some ExecMessage.buybackExecuted)
                (some txSignature) (some p.size),
               { st with pendingExecutions := st.pendingExecutions ++ [(txSignature, decision)] })

/-- `Executor.executeBurn(decision)`: gated by the burn feature flag and a
configured token mint; burns 10% of the current token balance (failing when
that amount is zero).  Burns are not added to the pending set. -/
def executeBurn (flags : FeatureFlags) (env : ChainEnv) (now : ℕ)
    (st : ExecutorState) (decision : PolicyDecision) : ExecutionResult × ExecutorState :=
  if flags.enableBurn = false then
    (createResult now decision false (some ExecMessage.burnFeatureDisabled)
      Option.none Option.none, st)
  else if env.tokenMint = "" then
    (createResult now decision false (some ExecMessage.tokenMintNotConfigured)
      Option.none Option.none, st)
  else
    match env.tokenBalance with
    | Except.error e =>
        (createResult now decision false (some (ExecMessage.externalError e))
          Option.none Option.none, st)
    | Except.ok balance =>
        let burnAmount := balance * (1/10)
        if burnAmount = 0 then
          (createResult now decision false (some ExecMessage.noTokensToBurn)
            Option.none Option.none, st)
        else
          match env.burnResult with
          | Except.error e =>
              (createResult now decision false (some (ExecMessage.externalError e))
                Option.none Option.none, st)
          | Except.ok txSignature =>
              (createResult now decision true (some ExecMessage.burnExecuted)
                (some txSignature) (some burnAmount), st)

/-- `Executor.execute(decision)`: returns early when auto-execution is
disabled; otherwise dispatches on the action (HODL_TREASURY and NOOP succeed
immediately with "No action required"), then calls
`recordExecution(decision.executionParams?.size || 0, result.success)` exactly
once.  Returns the result, the updated executor state, and the list of
`(amount, success)` arguments of the `recordExecution` calls made. -/
def Executor.execute (cfg : PolicyConfig) (flags : FeatureFlags) (env : ChainEnv)
    (now : ℕ) (st : ExecutorState) (decision : PolicyDecision) :
    ExecutionResult × ExecutorState × List (ℚ × Bool) :=
  if flags.enableAutoExecution = false then
    (createResult now decision false (some ExecMessage.autoExecutionDisabled)
      Option.none Option.none, st, [])
  else
    let step : ExecutionResult × ExecutorState :=
      match decision.action with
      | Action.BUYBACK => executeBuyback cfg env now st decision
      | Action.BURN => executeBurn flags env now st decision
      | Action.HODL_TREASURY =>
          (createResult now decision true (some ExecMessage.noActionRequired)
            Option.none Option.none, st)
      | Action.NOOP =>
          (createResult now decision true (some ExecMessage.noActionRequired)
            Option.none Option.none, st)
    let amount := decisionAmount decision
    let st' := { step.2 with risk := recordExecution step.2.risk amount step.1.success now }
    (step.1, st', [(amount, step.1.success)])

/-- `Executor.monitorPendingTransactions()` over an explicit entry list:
queries each active reference's status in order; `confirmed` entries are
removed, `failed` entries are removed and recorded as failed executions with
`decision.executionParams?.size || 0`, `pending` entries are kept.  Returns the
remaining entries, the final risk state, and the list of `(amount, success)`
arguments of the `recordExecution` calls made, in call order. -/
def monitorList (statusOf : String → TxStatus) (now : ℕ) :
    List (String × PolicyDecision) → RiskState →
    List (String × PolicyDecision) × RiskState × List (ℚ × Bool)
  | [], risk => ([], risk, [])
  | entry :: rest, risk =>
      match statusOf entry.1 with
      | TxStatus.pending =>
          let r := monitorList statusOf now rest risk
          (entry :: r.1, r.2.1, r.2.2)
      | TxStatus.confirmed => monitorList statusOf now rest risk
      | TxStatus.failed =>
          let amount := decisionAmount entry.2
          let r := monitorList statusOf now rest (recordExecution risk amount false now)
          (r.1, r.2.1, (amount, false) :: r.2.2)

/-- `Executor.monitorPendingTransactions()` on the executor state. -/
def monitorPendingTransactions (statusOf : String → TxStatus) (now : ℕ)
    (st : ExecutorState) : ExecutorState × List (ℚ × Bool) :=
  let r := monitorList statusOf now st.pendingExecutions st.risk
  ({ pendingExecutions := r.1, risk := r.2.1 }, r.2.2)

/-! Theorems. -/

/-- Shared characterization of the risk gate's acceptance condition: execution
is allowed exactly when the kill switch is off, the reserve check passes, the
daily-spend check passes and the loss count is strictly below the maximum. -/
theorem canExecute_allowed_iff (cfg : PolicyConfig) (s : RiskState) (amount : ℚ) :
    (canExecute cfg s amount).allowed = true ↔
      s.killSwitchActive = false ∧
      ¬(s.treasuryBalance - amount < s.treasuryBalance * cfg.minTreasuryThreshold) ∧
      ¬(s.dailySpent + amount > s.treasuryBalance * (cfg.maxDailySpendPercent / 100)) ∧
      s.consecutiveLosses < cfg.maxConsecutiveLosses := by
  unfold canExecute
  by_cases h1 : s.killSwitchActive
  · simp [h1]
  · by_cases h2 : s.treasuryBalance - amount < s.treasuryBalance * cfg.minTreasuryThreshold
    · simp [h1, h2]
    · by_cases h3 : s.dailySpent + amount > s.treasuryBalance * (cfg.maxDailySpendPercent / 100)
      · simp [h1, h2, h3]
      · by_cases h4 : s.consecutiveLosses ≥ cfg.maxConsecutiveLosses
        · simp [h1, h2, h3, h4]
        · simp [h1, h2, h3, h4]
          omega

/-- C9: for every value and mean, `calculateZScore(value, mean, 0) = 0` (the
division-by-zero branch returns the rational 0, never an undefined value), and
for `stdDev ≠ 0` the result is `(value - mean) / stdDev`. -/
theorem calculateZScore_spec (value mean stdDev : ℚ) :
    calculateZScore value mean 0 = 0 ∧
    (stdDev ≠ 0 → calculateZScore value mean stdDev = (value - mean) / stdDev) := by
  constructor
  · simp [calculateZScore]
  · intro h
    simp [calculateZScore, h]

/-- Witness for C9 at `value = 7`, `mean = 3`, `stdDev = 2`. -/
theorem calculateZScore_spec_witness :
    calculateZScore 7 3 0 = 0 ∧ ((2 : ℚ) ≠ 0 ∧ calculateZScore 7 3 2 = (7 - 3) / 2) :=
  ⟨(calculateZScore_spec 7 3 2).1, by decide, (calculateZScore_spec 7 3 2).2 (by decide)⟩

/-- C4: aggregating the empty sample batch returns the neutral zeroed mood and
leaves the aggregator state — the raw-score history and all three EMA
accumulators — exactly as it was. -/
theorem aggregate_empty_frame (sqrt : ℚ → ℚ) (now : ℕ) (s : SentimentAggregator) :
    SentimentAggregator.aggregate sqrt now s [] =
      ({ timestamp := now, rawScore := 0, zScore := 0, ema5 := 0, ema15 := 0, ema60 := 0,
         volume := 0, topicBreakdown := { ourCoin := 0, generalMarket := 0 } }, s) := rfl

/-- C6: `detectCrossover` returns `none` when either series has fewer than two
points; otherwise, over the last two paired samples, it returns `down` exactly
when fast was `≥` slow and is now strictly `<` slow, `up` exactly in the mirror
case, and `none` otherwise; and on the spec's examples it returns `down`, `up`
and `none` respectively. -/
theorem detectCrossover_spec (fast slow : List ℚ) :
    (fast.length < 2 ∨ slow.length < 2 → detectCrossover fast slow = Crossover.none) ∧
    (2 ≤ fast.length → 2 ≤ slow.length →
      ((detectCrossover fast slow = Crossover.down ↔
          slow.getD (slow.length - 2) 0 ≤ fast.getD (fast.length - 2) 0 ∧
          fast.getD (fast.length - 1) 0 < slow.getD (slow.length - 1) 0) ∧
       (detectCrossover fast slow = Crossover.up ↔
          fast.getD (fast.length - 2) 0 ≤ slow.getD (slow.length - 2) 0 ∧
          slow.getD (slow.length - 1) 0 < fast.getD (fast.length - 1) 0) ∧
       (detectCrossover fast slow = Crossover.none ↔
          ¬(slow.getD (slow.length - 2) 0 ≤ fast.getD (fast.length - 2) 0 ∧
            fast.getD (fast.length - 1) 0 < slow.getD (slow.length - 1) 0) ∧
          ¬(fast.getD (fast.length - 2) 0 ≤ slow.getD (slow.length - 2) 0 ∧
            slow.getD (slow.length - 1) 0 < fast.getD (fast.length - 1) 0)))) ∧
    detectCrossover [10, 4] [8, 8] = Crossover.down ∧
    detectCrossover [4, 10] [8, 8] = Crossover.up ∧
    detectCrossover [10, 10] [8, 8] = Crossover.none := by
  refine ⟨?_, ?_, by decide, by decide, by decide⟩
  · intro h
    unfold detectCrossover
    rw [if_pos h]
  · intro hf hs
    have hg : ¬(fast.length < 2 ∨ slow.length < 2) := by omega
    unfold detectCrossover
    rw [if_neg hg]
    dsimp only
    split_ifs with hup hdown
    · exact ⟨⟨fun h => by simp at h, fun h => (lt_asymm h.2 hup.2).elim⟩,
             ⟨fun _ => ⟨hup.1, hup.2⟩, fun _ => rfl⟩,
             ⟨fun h => by simp at h, fun h => (h.2 ⟨hup.1, hup.2⟩).elim⟩⟩
    · exact ⟨⟨fun _ => ⟨hdown.1, hdown.2⟩, fun _ => rfl⟩,
             ⟨fun h => by simp at h, fun h => (lt_asymm hdown.2 h.2).elim⟩,
             ⟨fun h => by simp at h, fun h => (h.1 ⟨hdown.1, hdown.2⟩).elim⟩⟩
    · exact ⟨⟨fun h => by simp at h, fun h => (hdown ⟨h.1, h.2⟩).elim⟩,
             ⟨fun h => by simp at h, fun h => (hup ⟨h.1, h.2⟩).elim⟩,
             ⟨fun _ => ⟨fun a => hdown ⟨a.1, a.2⟩, fun b => hup ⟨b.1, b.2⟩⟩, fun _ => rfl⟩⟩

/-- Witness for C6 at fast = [10, 4], slow = [8, 8]. -/
theorem detectCrossover_spec_witness :
    2 ≤ ([10, 4] : List ℚ).length ∧ 2 ≤ ([8, 8] : List ℚ).length ∧
    (detectCrossover ([10, 4] : List ℚ) ([8, 8] : List ℚ) = Crossover.down ↔
      ([8, 8] : List ℚ).getD (([8, 8] : List ℚ).length - 2) 0 ≤
        ([10, 4] : List ℚ).getD (([10, 4] : List ℚ).length - 2) 0 ∧
      ([10, 4] : List ℚ).getD (([10, 4] : List ℚ).length - 1) 0 <
        ([8, 8] : List ℚ).getD (([8, 8] : List ℚ).length - 1) 0) :=
  ⟨by decide, by decide,
   ((detectCrossover_spec [10, 4] [8, 8]).2.1 (by decide) (by decide)).1⟩

/-- C1: `canExecute` is the ordered short-circuit chain kill switch → treasury
reserve → daily spend limit → consecutive losses, the first failing check
determining the returned reason; while the kill switch is active every amount
is rejected; and with `treasuryBalance = 1000` and `minTreasuryThreshold =
1/10`, `canExecute 950` is rejected while `canExecute 850` is allowed whenever
the remaining checks pass. -/
theorem canExecute_ordered_chain (cfg : PolicyConfig) (s : RiskState) (amount : ℚ) :
    ((canExecute cfg s amount).allowed = true ↔
        s.killSwitchActive = false ∧
        ¬(s.treasuryBalance - amount < s.treasuryBalance * cfg.minTreasuryThreshold) ∧
        ¬(s.dailySpent + amount > s.treasuryBalance * (cfg.maxDailySpendPercent / 100)) ∧
        s.consecutiveLosses < cfg.maxConsecutiveLosses) ∧
    (s.killSwitchActive = true →
        canExecute cfg s amount = { allowed := false, reason := some RiskReason.killSwitch }) ∧
    (s.killSwitchActive = false →
        s.treasuryBalance - amount < s.treasuryBalance * cfg.minTreasuryThreshold →
        canExecute cfg s amount =
          { allowed := false,
            reason := some (RiskReason.insufficientTreasury
              (s.treasuryBalance * cfg.minTreasuryThreshold)) }) ∧
    (s.killSwitchActive = false →
        ¬(s.treasuryBalance - amount < s.treasuryBalance * cfg.minTreasuryThreshold) →
        s.dailySpent + amount > s.treasuryBalance * (cfg.maxDailySpendPercent / 100) →
        canExecute cfg s amount =
          { allowed := false,
            reason := some (RiskReason.dailyLimitExceeded s.dailySpent
              (s.treasuryBalance * (cfg.maxDailySpendPercent / 100))) }) ∧
    (s.killSwitchActive = false →
        ¬(s.treasuryBalance - amount < s.treasuryBalance * cfg.minTreasuryThreshold) →
        ¬(s.dailySpent + amount > s.treasuryBalance * (cfg.maxDailySpendPercent / 100)) →
        s.consecutiveLosses ≥ cfg.maxConsecutiveLosses →
        canExecute cfg s amount =
          { allowed := false,
            reason := some (RiskReason.tooManyLosses s.consecutiveLosses) }) ∧
    (s.killSwitchActive = false →
        ¬(s.treasuryBalance - amount < s.treasuryBalance * cfg.minTreasuryThreshold) →
        ¬(s.dailySpent + amount > s.treasuryBalance * (cfg.maxDailySpendPercent / 100)) →
        s.consecutiveLosses < cfg.maxConsecutiveLosses →
        canExecute cfg s amount = { allowed := true, reason := Option.none }) ∧
    (cfg.minTreasuryThreshold = 1/10 → s.treasuryBalance = 1000 → s.killSwitchActive = false →
        ((canExecute cfg s 950).allowed = false ∧
         (¬(s.dailySpent + 850 > 1000 * (cfg.maxDailySpendPercent / 100)) →
          s.consecutiveLosses < cfg.maxConsecutiveLosses →
          (canExecute cfg s 850).allowed = true))) := by
  refine ⟨canExecute_allowed_iff cfg s amount, ?_, ?_, ?_, ?_, ?_, ?_⟩
  · intro h1
    unfold canExecute
    rw [if_pos h1]
  · intro h1 h2
    unfold canExecute
    rw [if_neg (by simp [h1]), if_pos h2]
  · intro h1 h2 h3
    unfold canExecute
    rw [if_neg (by simp [h1]), if_neg h2, if_pos h3]
  · intro h1 h2 h3 h4
    unfold canExecute
    rw [if_neg (by simp [h1]), if_neg h2, if_neg h3, if_pos h4]
  · intro h1 h2 h3 h4
    unfold canExecute
    rw [if_neg (by simp [h1]), if_neg h2, if_neg h3, if_neg (by omega)]
  · intro hth htb hks
    constructor
    · have hres : s.treasuryBalance - 950 < s.treasuryBalance * cfg.minTreasuryThreshold := by
        rw [htb, hth]; norm_num
      unfold canExecute
      rw [if_neg (by simp [hks]), if_pos hres]
    · intro hdaily hlosses
      have hres : ¬(s.treasuryBalance - 850 < s.treasuryBalance * cfg.minTreasuryThreshold) := by
        rw [htb, hth]; norm_num
      unfold canExecute
      rw [if_neg (by simp [hks]), if_neg hres, if_neg (by rw [htb]; exact hdaily),
        if_neg (by omega)]

/-- A concrete risk state used by witnesses: treasury 1000, nothing spent, no
losses, kill switch off. -/
def sampleRiskState : RiskState :=
  { dailySpent := 0, consecutiveLosses := 0, lastExecutionTime := Option.none,
    treasuryBalance := 1000, killSwitchActive := false }

/-- The shipped policy with the daily-spend cap widened to 100%, used by
witnesses that need the daily-spend check to pass at larger amounts. -/
def samplePolicy : PolicyConfig :=
  { defaultPolicy with maxDailySpendPercent := 100 }

/-- Witness for C1: at treasury 1000 and reserve threshold 1/10 (with a
daily-spend cap the amounts fit under), 950 is rejected and 850 allowed. -/
theorem canExecute_ordered_chain_witness :
    samplePolicy.minTreasuryThreshold = 1/10 ∧
    sampleRiskState.treasuryBalance = 1000 ∧
    sampleRiskState.killSwitchActive = false ∧
    ¬(sampleRiskState.dailySpent + 850 > 1000 * (samplePolicy.maxDailySpendPercent / 100)) ∧
    sampleRiskState.consecutiveLosses < samplePolicy.maxConsecutiveLosses ∧
    (canExecute samplePolicy sampleRiskState 950).allowed = false ∧
    (canExecute samplePolicy sampleRiskState 850).allowed = true :=
  have hdaily : ¬(sampleRiskState.dailySpent + 850 >
      1000 * (samplePolicy.maxDailySpendPercent / 100)) := by
    norm_num [sampleRiskState, samplePolicy, defaultPolicy]
  have h := (canExecute_ordered_chain samplePolicy sampleRiskState 0).2.2.2.2.2.2
    rfl rfl rfl
  ⟨rfl, rfl, rfl, hdaily, by decide, h.1, h.2 hdaily (by decide)⟩

/-- C3: `recordExecution(amount, success)` always adds `amount` to the
current-day spend counter, resets `consecutiveLosses` to exactly 0 on success,
increments it by exactly 1 on failure, and sets the last-execution time; after
three failures (with `maxConsecutiveLosses = 3`) every `canExecute` is
rejected — with the loss-count reason whenever the earlier checks pass — and
after one subsequent success the same `canExecute` is allowed again provided
the other checks pass. -/
theorem recordExecution_spec (s : RiskState) (amount x1 x2 x3 y anyAmount : ℚ)
    (success : Bool) (now n1 n2 n3 n4 : ℕ) (cfg : PolicyConfig) :
    ((recordExecution s amount success now).dailySpent = s.dailySpent + amount) ∧
    (success = true → (recordExecution s amount success now).consecutiveLosses = 0) ∧
    (success = false →
      (recordExecution s amount success now).consecutiveLosses = s.consecutiveLosses + 1) ∧
    ((recordExecution s amount success now).lastExecutionTime = some now) ∧
    (cfg.maxConsecutiveLosses = 3 →
      ((canExecute cfg
          (recordExecution (recordExecution (recordExecution s x1 false n1) x2 false n2)
            x3 false n3) anyAmount).allowed = false) ∧
      (s.killSwitchActive = false →
       ¬(s.treasuryBalance - anyAmount < s.treasuryBalance * cfg.minTreasuryThreshold) →
       ¬(s.dailySpent + x1 + x2 + x3 + anyAmount >
           s.treasuryBalance * (cfg.maxDailySpendPercent / 100)) →
       (canExecute cfg
          (recordExecution (recordExecution (recordExecution s x1 false n1) x2 false n2)
            x3 false n3) anyAmount).reason =
         some (RiskReason.tooManyLosses (s.consecutiveLosses + 3))) ∧
      (s.killSwitchActive = false →
       ¬(s.treasuryBalance - anyAmount < s.treasuryBalance * cfg.minTreasuryThreshold) →
       ¬(s.dailySpent + x1 + x2 + x3 + y + anyAmount >
           s.treasuryBalance * (cfg.maxDailySpendPercent / 100)) →
       (canExecute cfg
          (recordExecution
            (recordExecution (recordExecution (recordExecution s x1 false n1) x2 false n2)
              x3 false n3) y true n4) anyAmount).allowed = true)) := by
  refine ⟨rfl, ?_, ?_, rfl, ?_⟩
  · intro h
    simp [recordExecution, h]
  · intro h
    simp [recordExecution, h]
  · intro hmax
    refine ⟨?_, ?_, ?_⟩
    · have hiff := canExecute_allowed_iff cfg
        (recordExecution (recordExecution (recordExecution s x1 false n1) x2 false n2) x3 false n3)
        anyAmount
      cases hall : (canExecute cfg
          (recordExecution (recordExecution (recordExecution s x1 false n1) x2 false n2)
            x3 false n3) anyAmount).allowed with
      | false => rfl
      | true =>
          exfalso
          have h := hiff.mp hall
          have hc : (recordExecution (recordExecution (recordExecution s x1 false n1) x2 false n2)
              x3 false n3).consecutiveLosses = s.consecutiveLosses + 3 := by
            simp [recordExecution]
          rw [hc, hmax] at h
          omega
    · intro hks hres hdaily
      have hc : (recordExecution (recordExecution (recordExecution s x1 false n1) x2 false n2)
          x3 false n3) =
          { s with dailySpent := s.dailySpent + x1 + x2 + x3,
                   consecutiveLosses := s.consecutiveLosses + 3,
                   lastExecutionTime := some n3 } := by
        simp [recordExecution]
      rw [hc]
      unfold canExecute
      rw [if_neg (by simp [hks]), if_neg hres, if_neg (by simpa using hdaily),
        if_pos (by simp [hmax])]
    · intro hks hres hdaily
      have hc : (recordExecution
          (recordExecution (recordExecution (recordExecution s x1 false n1) x2 false n2)
            x3 false n3) y true n4) =
          { s with dailySpent := s.dailySpent + x1 + x2 + x3 + y,
                   consecutiveLosses := 0,
                   lastExecutionTime := some n4 } := by
        simp [recordExecution]
      rw [hc]
      unfold canExecute
      rw [if_neg (by simp [hks]), if_neg hres, if_neg (by simpa using hdaily),
        if_neg (by simp [hmax])]

/-- Counterexample to C7: over a store whose treasury balance is 1000 at the
first read and 0 afterwards (with a 100% daily-spend cap, nothing spent, no
losses, kill switch off), the implementation allows amount 850 — it reuses the
single balance read for the daily-spend check — while the spec's
fresh-read-per-check reading would reject it. -/
theorem canExecute_fresh_read_counterexample :
    (canExecuteStore samplePolicy false (fun n => if n = 0 then 1000 else 0)
        0 0 850).1.allowed = true ∧
    (canExecuteFreshSpec samplePolicy false (fun n => if n = 0 then 1000 else 0)
        0 0 850).allowed = false := by
  constructor
  · norm_num [canExecuteStore, samplePolicy, defaultPolicy]
  · norm_num [canExecuteFreshSpec, samplePolicy, defaultPolicy]

/-- C7 (amended): within one `canExecute` call the treasury balance is read
from the durable store exactly once — before the reserve check, and not at all
when the kill switch short-circuits — and that single value (the store's value
at read index 0) is reused by both the reserve check and the daily-spend-limit
check; the call behaves exactly like `canExecute` run on the balance of the
first read. -/
theorem canExecute_single_balance_read (cfg : PolicyConfig) (kill : Bool)
    (balanceAt : ℕ → ℚ) (dailySpent : ℚ) (losses : ℕ) (amount : ℚ) :
    (canExecuteStore cfg kill balanceAt dailySpent losses amount).2 =
      (if kill then 0 else 1) ∧
    (canExecuteStore cfg kill balanceAt dailySpent losses amount).1 =
      canExecute cfg
        { dailySpent := dailySpent, consecutiveLosses := losses,
          lastExecutionTime := Option.none, treasuryBalance := balanceAt 0,
          killSwitchActive := kill } amount := by
  unfold canExecuteStore canExecute
  dsimp only
  split_ifs <;> exact ⟨rfl, rfl⟩

/-- Shared shape of the decision engine's history update: `makeDecision`
returns, in every rule branch, the engine whose histories are the old ones with
the mood's `ema15`/`ema60` appended, both dropping their oldest entry when the
`ema15` history exceeds 100 entries. -/
theorem makeDecision_snd (cfg : PolicyConfig) (now : ℕ) (eng : DecisionEngine)
    (risk : RiskState) (mood : AggregatedMood) (market : MarketSignal) :
    (makeDecision cfg now eng risk mood market).2 =
      if (eng.ema15History ++ [mood.ema15]).length > 100 then
        { ema15History := (eng.ema15History ++ [mood.ema15]).tail,
          ema60History := (eng.ema60History ++ [mood.ema60]).tail }
      else
        { ema15History := eng.ema15History ++ [mood.ema15],
          ema60History := eng.ema60History ++ [mood.ema60] } := by
  unfold makeDecision
  dsimp only
  split_ifs <;> rfl

/-- C8: every `makeDecision` invocation, whichever rule fires, appends the
mood's `ema15` and `ema60` to their history buffers, which stay of equal length
and capped at 100 with the oldest entry evicted first; and a (non-empty)
aggregation appends the raw score to the aggregator's history, capped at 1000
with the oldest entry evicted first. -/
theorem history_buffers_bounded (cfg : PolicyConfig) (now : ℕ) (eng : DecisionEngine)
    (risk : RiskState) (mood : AggregatedMood) (market : MarketSignal)
    (sqrt : ℚ → ℚ) (s : SentimentAggregator) (tweets : List ProcessedTweet)
    (heq : eng.ema15History.length = eng.ema60History.length)
    (hle : eng.ema15History.length ≤ 100)
    (hcap : s.maxHistorySize = 1000)
    (hsle : s.historicalScores.length ≤ 1000) :
    ((makeDecision cfg now eng risk mood market).2.ema15History =
       if eng.ema15History.length + 1 > 100
       then (eng.ema15History ++ [mood.ema15]).tail
       else eng.ema15History ++ [mood.ema15]) ∧
    ((makeDecision cfg now eng risk mood market).2.ema60History =
       if eng.ema15History.length + 1 > 100
       then (eng.ema60History ++ [mood.ema60]).tail
       else eng.ema60History ++ [mood.ema60]) ∧
    (makeDecision cfg now eng risk mood market).2.ema15History.length =
      (makeDecision cfg now eng risk mood market).2.ema60History.length ∧
    (makeDecision cfg now eng risk mood market).2.ema15History.length ≤ 100 ∧
    (tweets.length ≠ 0 →
      (SentimentAggregator.aggregate sqrt now s tweets).2.historicalScores =
        if s.historicalScores.length + 1 > 1000
        then (s.historicalScores ++
          [(SentimentAggregator.aggregate sqrt now s tweets).1.rawScore]).tail
        else s.historicalScores ++
          [(SentimentAggregator.aggregate sqrt now s tweets).1.rawScore]) ∧
    (SentimentAggregator.aggregate sqrt now s tweets).2.historicalScores.length ≤ 1000 := by
  rw [makeDecision_snd]
  simp only [List.length_append, List.length_singleton]
  refine ⟨?_, ?_, ?_, ?_, ?_, ?_⟩
  · split_ifs <;> rfl
  · split_ifs <;> rfl
  · split_ifs with h1
    · simp only [List.length_tail, List.length_append, List.length_singleton]
      omega
    · simp only [List.length_append, List.length_singleton]
      omega
  · split_ifs with h1
    · simp only [List.length_tail, List.length_append, List.length_singleton]
      omega
    · simp only [List.length_append, List.length_singleton]
      omega
  · intro hne
    unfold SentimentAggregator.aggregate
    rw [if_neg hne]
    dsimp only
    rw [hcap]
    simp
  · by_cases hne : tweets.length = 0
    · unfold SentimentAggregator.aggregate
      rw [if_pos hne]
      exact hsle
    · unfold SentimentAggregator.aggregate
      rw [if_neg hne]
      dsimp only
      rw [hcap]
      split_ifs with h1 <;> simp_all

/-- C2: `makeDecision` evaluates its rules in order with first-match-wins
semantics — hype HODL, then FUD-dip BUYBACK sized
`0.01 * |zScore| * treasuryBalance * 0.5` and gated through
`canExecute` (downgrading to NOOP carrying the rejection reason and no
execution params), then bearish-crossover BURN given liquidity above 10000,
else the no-clear-signal NOOP. -/
theorem makeDecision_rule_order (cfg : PolicyConfig) (now : ℕ) (eng : DecisionEngine)
    (risk : RiskState) (mood : AggregatedMood) (market : MarketSignal) :
    (mood.zScore ≥ cfg.hypeThreshold → market.momentum ≥ cfg.momentumPositive →
      (makeDecision cfg now eng risk mood market).1.action = Action.HODL_TREASURY ∧
      (makeDecision cfg now eng risk mood market).1.executionParams = Option.none) ∧
    (¬(mood.zScore ≥ cfg.hypeThreshold ∧ market.momentum ≥ cfg.momentumPositive) →
     mood.zScore ≤ cfg.fudThreshold → market.momentum ≤ cfg.momentumNegative →
      (((canExecute cfg risk
            ((1/100 : ℚ) * |mood.zScore| * risk.treasuryBalance * (1/2))).allowed = true →
        (makeDecision cfg now eng risk mood market).1.action = Action.BUYBACK ∧
        (makeDecision cfg now eng risk mood market).1.reason =
          DecisionReason.lowSentimentBuying mood.zScore ∧
        (makeDecision cfg now eng risk mood market).1.executionParams =
          some { size := (1/100 : ℚ) * |mood.zScore| * risk.treasuryBalance * (1/2),
                 maxSlippage := cfg.maxSlippagePercent, dcaFactor := 1/2 }) ∧
       ((canExecute cfg risk
            ((1/100 : ℚ) * |mood.zScore| * risk.treasuryBalance * (1/2))).allowed = false →
        (makeDecision cfg now eng risk mood market).1.action = Action.NOOP ∧
        (makeDecision cfg now eng risk mood market).1.reason =
          DecisionReason.buybackBlocked
            (canExecute cfg risk
              ((1/100 : ℚ) * |mood.zScore| * risk.treasuryBalance * (1/2))).reason ∧
        (makeDecision cfg now eng risk mood market).1.executionParams = Option.none))) ∧
    (¬(mood.zScore ≥ cfg.hypeThreshold ∧ market.momentum ≥ cfg.momentumPositive) →
     ¬(mood.zScore ≤ cfg.fudThreshold ∧ market.momentum ≤ cfg.momentumNegative) →
     detectBearishCrossover (makeDecision cfg now eng risk mood market).2 = true →
     market.liquidity > 10000 →
      (makeDecision cfg now eng risk mood market).1.action = Action.BURN ∧
      (makeDecision cfg now eng risk mood market).1.executionParams = Option.none) ∧
    (¬(mood.zScore ≥ cfg.hypeThreshold ∧ market.momentum ≥ cfg.momentumPositive) →
     ¬(mood.zScore ≤ cfg.fudThreshold ∧ market.momentum ≤ cfg.momentumNegative) →
     ¬(detectBearishCrossover (makeDecision cfg now eng risk mood market).2 = true ∧
       market.liquidity > 10000) →
      (makeDecision cfg now eng risk mood market).1.action = Action.NOOP ∧
      (makeDecision cfg now eng risk mood market).1.reason = DecisionReason.noClearSignal) := by
  refine ⟨?_, ?_, ?_, ?_⟩
  · intro h1 h2
    unfold makeDecision
    dsimp only
    rw [if_pos ⟨h1, h2⟩]
    exact ⟨rfl, rfl⟩
  · intro hn1 h2a h2b
    constructor
    · intro hallow
      unfold makeDecision
      dsimp only
      rw [if_neg hn1, if_pos ⟨h2a, h2b⟩, if_pos hallow]
      exact ⟨rfl, rfl, rfl⟩
    · intro hreject
      unfold makeDecision
      dsimp only
      rw [if_neg hn1, if_pos ⟨h2a, h2b⟩, if_neg (by rw [hreject]; exact Bool.false_ne_true)]
      exact ⟨rfl, rfl, rfl⟩
  · intro hn1 hn2 hcross hliq
    rw [makeDecision_snd] at hcross
    unfold makeDecision
    dsimp only
    rw [if_neg hn1, if_neg hn2, if_pos ⟨hcross, by simpa using hliq⟩]
    exact ⟨rfl, rfl⟩
  · intro hn1 hn2 hn3
    rw [makeDecision_snd] at hn3
    unfold makeDecision
    dsimp only
    rw [if_neg hn1, if_neg hn2, if_neg (by simpa using hn3)]
    exact ⟨rfl, rfl⟩

/-- A concrete mood with z-score 2, used by witnesses. -/
def sampleMood : AggregatedMood :=
  { timestamp := 0, rawScore := 0, zScore := 2, ema5 := 0, ema15 := 0, ema60 := 0,
    volume := 0, topicBreakdown := { ourCoin := 0, generalMarket := 0 } }

/-- A concrete market signal with momentum 0.01, used by witnesses. -/
def sampleMarket : MarketSignal :=
  { price := 1, priceChange24h := 0, volume24h := 0, liquidity := 20000,
    momentum := 1/100, largeTransfers := 0 }

/-- Witness for C2: with the shipped thresholds (`hypeThreshold = 1.5`,
`momentumPositive = 0`), z-score 2 and momentum 0.01 make rule 1 fire and
yield HODL with no execution params. -/
theorem makeDecision_rule_order_witness :
    sampleMood.zScore ≥ defaultPolicy.hypeThreshold ∧
    sampleMarket.momentum ≥ defaultPolicy.momentumPositive ∧
    (makeDecision defaultPolicy 0 ⟨[], []⟩ sampleRiskState sampleMood
        sampleMarket).1.action = Action.HODL_TREASURY ∧
    (makeDecision defaultPolicy 0 ⟨[], []⟩ sampleRiskState sampleMood
        sampleMarket).1.executionParams = Option.none :=
  have hz : sampleMood.zScore ≥ defaultPolicy.hypeThreshold := by
    norm_num [sampleMood, defaultPolicy]
  have hm : sampleMarket.momentum ≥ defaultPolicy.momentumPositive := by
    norm_num [sampleMarket, defaultPolicy]
  have h := (makeDecision_rule_order defaultPolicy 0 ⟨[], []⟩ sampleRiskState sampleMood
    sampleMarket).1 hz hm
  ⟨hz, hm, h.1, h.2⟩

/-- Shared characterization of one polling pass: the surviving entries are
exactly the pending ones, the risk state folds one failure record per failed
entry, and the record-call log lists exactly the failed entries' amounts. -/
theorem monitorList_eq (statusOf : String → TxStatus) (now : ℕ)
    (entries : List (String × PolicyDecision)) (risk : RiskState) :
    monitorList statusOf now entries risk =
      (entries.filter (fun e => decide (statusOf e.1 = TxStatus.pending)),
       (entries.filter (fun e => decide (statusOf e.1 = TxStatus.failed))).foldl
         (fun r e => recordExecution r (decisionAmount e.2) false now) risk,
       (entries.filter (fun e => decide (statusOf e.1 = TxStatus.failed))).map
         (fun e => (decisionAmount e.2, false))) := by
  induction entries generalizing risk with
  | nil => rfl
  | cons e rest ih =>
      cases h : statusOf e.1 with
      | pending => simp [monitorList, h, ih, List.filter_cons]
      | confirmed => simp [monitorList, h, ih, List.filter_cons]
      | failed => simp [monitorList, h, ih, List.filter_cons]

/-- A polling pass over entries that are all pending changes nothing. -/
theorem monitorList_all_pending (statusOf : String → TxStatus) (now : ℕ)
    (entries : List (String × PolicyDecision)) (risk : RiskState)
    (h : ∀ e ∈ entries, statusOf e.1 = TxStatus.pending) :
    monitorList statusOf now entries risk = (entries, risk, []) := by
  induction entries with
  | nil => rfl
  | cons e rest ih =>
      have he := h e (by simp)
      have hrest : ∀ e' ∈ rest, statusOf e'.1 = TxStatus.pending :=
        fun e' he' => h e' (List.mem_cons_of_mem e he')
      simp [monitorList, he, ih hrest]

/-- C5: in a polling pass, failed references are removed and each triggers
exactly one `recordExecution(amount, false)`; confirmed references are removed
with no risk call; pending references stay, untouched; and a second pass over
the survivors (the previously terminal references now being gone) changes
neither the active set nor the risk state and makes no risk call. -/
theorem monitorPending_spec (statusOf : String → TxStatus) (now : ℕ)
    (entries : List (String × PolicyDecision)) (risk : RiskState) :
    (monitorList statusOf now entries risk).1 =
      entries.filter (fun e => decide (statusOf e.1 = TxStatus.pending)) ∧
    (monitorList statusOf now entries risk).2.2 =
      (entries.filter (fun e => decide (statusOf e.1 = TxStatus.failed))).map
        (fun e => (decisionAmount e.2, false)) ∧
    (monitorList statusOf now entries risk).2.1 =
      (entries.filter (fun e => decide (statusOf e.1 = TxStatus.failed))).foldl
        (fun r e => recordExecution r (decisionAmount e.2) false now) risk ∧
    (∀ ref d, statusOf ref = TxStatus.failed →
      monitorList statusOf now [(ref, d)] risk =
        ([], recordExecution risk (decisionAmount d) false now,
         [(decisionAmount d, false)])) ∧
    (∀ ref d, statusOf ref = TxStatus.confirmed →
      monitorList statusOf now [(ref, d)] risk = ([], risk, [])) ∧
    (∀ ref d, statusOf ref = TxStatus.pending →
      monitorList statusOf now [(ref, d)] risk = ([(ref, d)], risk, [])) ∧
    monitorList statusOf now (monitorList statusOf now entries risk).1
        (monitorList statusOf now entries risk).2.1 =
      ((monitorList statusOf now entries risk).1,
       (monitorList statusOf now entries risk).2.1, []) := by
  refine ⟨by rw [monitorList_eq], by rw [monitorList_eq], by rw [monitorList_eq],
    ?_, ?_, ?_, ?_⟩
  · intro ref d h
    simp [monitorList, h]
  · intro ref d h
    simp [monitorList, h]
  · intro ref d h
    simp [monitorList, h]
  · apply monitorList_all_pending
    intro e he
    rw [monitorList_eq] at he
    have := List.of_mem_filter he
    exact of_decide_eq_true this

/-- A concrete decision with execution parameters, used by witnesses. -/
def sampleDecision : PolicyDecision :=
  { timestamp := 0, action := Action.BUYBACK,
    reason := DecisionReason.lowSentimentBuying (-2),
    signals := { moodZScore := -2, priceMomentum := 0, liquidityOk := false },
    executionParams := some { size := 10, maxSlippage := 2, dcaFactor := 1/2 } }

/-- Witness for C5: a single tracked reference whose status is `failed` is
removed and recorded as exactly one failed execution. -/
theorem monitorPending_spec_witness :
    (fun _ : String => TxStatus.failed) "tx1" = TxStatus.failed ∧
    monitorList (fun _ : String => TxStatus.failed) 7 [("tx1", sampleDecision)]
        sampleRiskState =
      ([], recordExecution sampleRiskState (decisionAmount sampleDecision) false 7,
       [(decisionAmount sampleDecision, false)]) :=
  ⟨rfl,
   (monitorPending_spec (fun _ : String => TxStatus.failed) 7 [("tx1", sampleDecision)]
      sampleRiskState).2.2.2.1 "tx1" sampleDecision rfl⟩

/-- C10: with auto-execution enabled, `execute` calls `recordExecution` exactly
once for every decision, with amount `executionParams?.size || 0` and the
result's success flag; for NOOP and HODL decisions the result is successful, so
the call is `recordExecution(amount, true)`, which resets `consecutiveLosses`
to 0 and updates the last-execution time. -/
theorem execute_records_once (cfg : PolicyConfig) (flags : FeatureFlags) (env : ChainEnv)
    (now : ℕ) (st : ExecutorState) (decision : PolicyDecision)
    (hauto : flags.enableAutoExecution = true) :
    (Executor.execute cfg flags env now st decision).2.2 =
      [(decisionAmount decision,
        (Executor.execute cfg flags env now st decision).1.success)] ∧
    (Executor.execute cfg flags env now st decision).2.2.length = 1 ∧
    ((decision.action = Action.NOOP ∨ decision.action = Action.HODL_TREASURY) →
      (Executor.execute cfg flags env now st decision).1.success = true ∧
      (Executor.execute cfg flags env now st decision).2.2 =
        [(decisionAmount decision, true)] ∧
      (Executor.execute cfg flags env now st decision).2.1.risk.consecutiveLosses = 0 ∧
      (Executor.execute cfg flags env now st decision).2.1.risk.lastExecutionTime =
        some now) := by
  unfold Executor.execute
  rw [if_neg (by simp [hauto])]
  dsimp only
  refine ⟨rfl, rfl, ?_⟩
  intro hact
  rcases hact with h | h <;>
    simp [h, createResult, recordExecution]

/-- A concrete NOOP decision without execution parameters, used by witnesses. -/
def sampleNoopDecision : PolicyDecision :=
  { timestamp := 0, action := Action.NOOP, reason := DecisionReason.noClearSignal,
    signals := { moodZScore := 0, priceMomentum := 0, liquidityOk := false },
    executionParams := Option.none }

/-- A chain environment and executor state used by the C10 witness. -/
def sampleChainEnv : ChainEnv :=
  { tokenMint := "", swapResult := Except.ok "sig", tokenBalance := Except.ok 0,
    burnResult := Except.ok "sig" }

/-- Witness for C10: executing a NOOP decision with auto-execution enabled
records one successful execution of amount 0 and resets the loss counter. -/
theorem execute_records_once_witness :
    ({ enableAutoExecution := true, enableBurn := false } : FeatureFlags).enableAutoExecution
        = true ∧
    (sampleNoopDecision.action = Action.NOOP ∨
      sampleNoopDecision.action = Action.HODL_TREASURY) ∧
    (Executor.execute defaultPolicy { enableAutoExecution := true, enableBurn := false }
        sampleChainEnv 9 { pendingExecutions := [], risk := sampleRiskState }
        sampleNoopDecision).2.2 = [(decisionAmount sampleNoopDecision, true)] ∧
    (Executor.execute defaultPolicy { enableAutoExecution := true, enableBurn := false }
        sampleChainEnv 9 { pendingExecutions := [], risk := sampleRiskState }
        sampleNoopDecision).2.1.risk.consecutiveLosses = 0 :=
  have h := (execute_records_once defaultPolicy
    { enableAutoExecution := true, enableBurn := false } sampleChainEnv 9
    { pendingExecutions := [], risk := sampleRiskState } sampleNoopDecision rfl).2.2
    (Or.inl rfl)
  ⟨rfl, Or.inl rfl, h.2.1, h.2.2.1⟩

/-- Witness for C3: from the sample state, three failed executions make every
`canExecute` rejection, and a subsequent success restores acceptance. -/
theorem recordExecution_spec_witness :
    defaultPolicy.maxConsecutiveLosses = 3 ∧
    (recordExecution sampleRiskState 5 false 1).dailySpent =
      sampleRiskState.dailySpent + 5 ∧
    (canExecute defaultPolicy
      (recordExecution (recordExecution (recordExecution sampleRiskState 0 false 1)
        0 false 2) 0 false 3) 0).allowed = false ∧
    (canExecute defaultPolicy
      (recordExecution (recordExecution (recordExecution
        (recordExecution sampleRiskState 0 false 1) 0 false 2) 0 false 3)
        0 true 4) 0).allowed = true :=
  have hks : sampleRiskState.killSwitchActive = false := rfl
  have hres : ¬(sampleRiskState.treasuryBalance - 0 <
      sampleRiskState.treasuryBalance * defaultPolicy.minTreasuryThreshold) := by
    norm_num [sampleRiskState, defaultPolicy]
  have hdaily3 : ¬(sampleRiskState.dailySpent + 0 + 0 + 0 + 0 >
      sampleRiskState.treasuryBalance * (defaultPolicy.maxDailySpendPercent / 100)) := by
    norm_num [sampleRiskState, defaultPolicy]
  have hdaily4 : ¬(sampleRiskState.dailySpent + 0 + 0 + 0 + 0 + 0 >
      sampleRiskState.treasuryBalance * (defaultPolicy.maxDailySpendPercent / 100)) := by
    norm_num [sampleRiskState, defaultPolicy]
  have h := recordExecution_spec sampleRiskState 5 0 0 0 0 0 false 1 1 2 3 4 defaultPolicy
  have h3 := h.2.2.2.2 rfl
  ⟨rfl, h.1, h3.1, h3.2.2 hks hres hdaily4⟩

/-- Witness for C8: a two-entry engine history and the fresh aggregator keep
their buffers within bounds after one decision and one (empty) aggregation. -/
theorem history_buffers_bounded_witness :
    (⟨[1, 2], [3, 4]⟩ : DecisionEngine).ema15History.length =
      (⟨[1, 2], [3, 4]⟩ : DecisionEngine).ema60History.length ∧
    (⟨[1, 2], [3, 4]⟩ : DecisionEngine).ema15History.length ≤ 100 ∧
    SentimentAggregator.init.maxHistorySize = 1000 ∧
    SentimentAggregator.init.historicalScores.length ≤ 1000 ∧
    (makeDecision defaultPolicy 0 ⟨[1, 2], [3, 4]⟩ sampleRiskState sampleMood
        sampleMarket).2.ema15History.length ≤ 100 ∧
    (SentimentAggregator.aggregate (fun q => q) 0 SentimentAggregator.init
        []).2.historicalScores.length ≤ 1000 :=
  have h := history_buffers_bounded defaultPolicy 0 ⟨[1, 2], [3, 4]⟩ sampleRiskState
    sampleMood sampleMarket (fun q => q) SentimentAggregator.init [] rfl (by decide)
    rfl (by decide)
  ⟨rfl, by decide, rfl, by decide, h.2.2.2.1, h.2.2.2.2.2⟩

end MoodAgent








